import Mathlib

/-!
Shallow embedding of the scoring and data-normalization pipeline of
`src/preprocess.py` from the LA-county sewer-risk dashboard, together
with theorems settling the frozen specification claims.

Modelling conventions:
* Python strings are Lean `String`; `str.upper()` is `String` char-wise
  `Char.toUpper` (the labels involved are ASCII); `str.strip()` drops
  whitespace from both ends; `x in s` is substring containment.
* Missing values (pandas `NaN` / `None`) are `Option.none`.
* Pipe ages flow through the pipeline as rationals (`ℚ`): the data
  values are decimal literals and every branch in the repair and
  filtering code compares against integer thresholds, so `ℚ` is a
  faithful, decidable model of the float column.
* The real-valued scoring formula `20 + (age/100)**1.8 * 80` is modelled
  over `ℝ` with `Real.rpow`.
* `pd.to_datetime(row["spill_date"]).year` is modelled as an
  `Option ℤ` field `spill_year` (`none` = unparseable date, i.e. `NaT`).
-/

/-- Python `s.upper()` restricted to ASCII, as used on material labels. -/
def pyUpper (s : String) : String :=
  ⟨s.data.map Char.toUpper⟩

/-- Python `s.strip()`: remove leading and trailing whitespace. -/
def pyStrip (s : String) : String :=
  ⟨((s.data.dropWhile Char.isWhitespace).reverse.dropWhile Char.isWhitespace).reverse⟩

/-- `listInfix needle hay` decides whether `needle` occurs contiguously in `hay`. -/
def listInfix (needle : List Char) : List Char → Bool
  | [] => needle.isEmpty
  | c :: t => needle.isPrefixOf (c :: t) || listInfix needle t

/-- Python substring containment `needle in haystack`. -/
def containsTok (haystack needle : String) : Bool :=
  listInfix needle.data haystack.data

/-- Python `s.isdigit()` for ASCII strings: nonempty and all digits. -/
def isAllDigits (s : String) : Bool :=
  !s.isEmpty && s.data.all Char.isDigit

/-- `str(material).upper().strip()`, the shared preamble of
`calculate_material_score` and `standardize_material_name`. -/
def upperStrip (s : String) : String :=
  pyStrip (pyUpper s)

/-- Embedding of `calculate_material_score` (preprocess.py lines 60-110):
an ordered chain of substring family tests over the upper-cased, stripped
label, each returning a fixed score, with default 50. -/
def calculate_material_score (material : String) : ℕ :=
  let mu := upperStrip material
  if (["CAST IRON", "C.I.", "CIP", "CI"].any fun x => containsTok mu x) then 100
  else if (["CONCRETE", "CONC", "CON", "RCP", "CMP"].any fun x => containsTok mu x) then 70
  else if (["STEEL"].any fun x => containsTok mu x) then 60
  else if (["VCP", "VITRIFIED", "CLAY", "V.C.P"].any fun x => containsTok mu x) then 50
  else if (["ASBESTOS", "AC", "A/C"].any fun x => containsTok mu x) then 36
  else if (["DUCTILE", "DIP", "D.I.P"].any fun x => containsTok mu x) then 18
  else if (["PVC", "PLASTIC", "POLY", "HDPE", "PE", "POLYVINYL", "POLYETHYLENE"].any
      fun x => containsTok mu x) then 10
  else 50

/-- The disjunction of the seven family tests of `calculate_material_score`:
`true` exactly when some family rule (not the moderate default) fires. -/
def materialFamilyMatched (material : String) : Bool :=
  let mu := upperStrip material
  (["CAST IRON", "C.I.", "CIP", "CI"].any fun x => containsTok mu x)
  || (["CONCRETE", "CONC", "CON", "RCP", "CMP"].any fun x => containsTok mu x)
  || (["STEEL"].any fun x => containsTok mu x)
  || (["VCP", "VITRIFIED", "CLAY", "V.C.P"].any fun x => containsTok mu x)
  || (["ASBESTOS", "AC", "A/C"].any fun x => containsTok mu x)
  || (["DUCTILE", "DIP", "D.I.P"].any fun x => containsTok mu x)
  || (["PVC", "PLASTIC", "POLY", "HDPE", "PE", "POLYVINYL", "POLYETHYLENE"].any
      fun x => containsTok mu x)

/-- Embedding of `standardize_material_name` (preprocess.py lines 133-218).
`none` models a pandas-missing (`NaN`) material.  The numeric/short-label
guard falls through to the family chain when the label is one of the five
allow-listed two-letter codes, exactly as the nested `if` in the source.
The final case returns the original string stripped (original casing). -/
def standardize_material_name (material : Option String) : String :=
  match material with
  | none => "Unknown"
  | some s =>
    let mu := upperStrip s
    if (isAllDigits mu || mu == "" || decide (mu.length ≤ 2))
        && !(["CI", "DI", "AC", "VC", "CP"].contains mu) then
      "Unknown"
    else if (["VCP", "VITRIFIED", "CLAY", "V.C.P", "TCP", "TERRA COTTA"].any
        fun x => containsTok mu x) then "VCP"
    else if ["VC", "V.C.", "BCP"].contains mu then "VCP"
    else if (["CONCRETE", "CONC", "RCP", "NRCP", "CMP"].any fun x => containsTok mu x) then
      (if containsTok mu "RCP" || containsTok mu "REINFORCED" then "Concrete (Reinforced)"
       else "Concrete")
    else if ["CP", "C.P.", "CON", "CONC.", "CEMENT"].contains mu then "Concrete"
    else if (["CAST IRON", "C.I.", "CIP"].any fun x => containsTok mu x) then "Cast Iron"
    else if mu == "CI" then "Cast Iron"
    else if (["DUCTILE", "DIP", "D.I.P"].any fun x => containsTok mu x) then "Ductile Iron"
    else if mu == "DI" then "Ductile Iron"
    else if (["PVC", "POLYVINYL", "PVCP", "C900", "ABS"].any fun x => containsTok mu x) then "PVC"
    else if (["HDPE", "HPDE", "POLYETHYLENE", "PE", "PLASTIC", "HDP"].any
        fun x => containsTok mu x) then "HDPE"
    else if containsTok mu "STEEL" || mu == "METAL" then "Steel"
    else if containsTok mu "BRICK" || mu == "B/C" then "Brick"
    else if (["ASBESTOS", "AC", "A/C", "TRANSITE"].any fun x => containsTok mu x) then
      "Asbestos Cement"
    else if (["FIBERGLASS", "FRP", "TECHITE"].any fun x => containsTok mu x) then "Fiberglass"
    else if (["UNKNOWN", "UKN", "UNK", "OTHER", "N/A", "NONE", "GREASE", "HAIR",
        "BLUEBELL"].any fun x => containsTok mu x) then "Unknown"
    else pyStrip s

/-- Embedding of `fix_pipe_age` (preprocess.py lines 221-263) on one row.
`age` is the numeric-coerced `pipe_age_years` (`none` = `NaN`), `spillYear`
the year of the parsed `spill_date` (`none` = unparseable / `NaT`).  The
source's control flow is kept: null or `age <= 150` returned as-is;
`age > 1800` treated as an installation year with a `(0, 150]` sanity
check; `150 < age < 1800` (strict on both sides) treated as months with
the same sanity check; every failed branch falls through to `return age`. -/
def fix_pipe_age (age : Option ℚ) (spillYear : Option ℤ) : Option ℚ :=
  match age with
  | none => none
  | some a =>
    if a ≤ 150 then some a
    else if 1800 < a then
      match spillYear with
      | some y =>
        let calculated_age : ℚ := (y : ℚ) - a
        if 0 < calculated_age ∧ calculated_age ≤ 150 then some calculated_age
        else some a
      | none => some a
    else if 150 < a ∧ a < 1800 then
      let age_in_years := a / 12
      if 0 < age_in_years ∧ age_in_years ≤ 150 then some age_in_years
      else some a
    else some a

/-- Embedding of `calculate_age_score` (preprocess.py lines 32-57):
`20` for `age <= 0`, else `min(100, 20 + (age/100)**1.8 * 80)`. -/
noncomputable def calculate_age_score (age : ℝ) : ℝ :=
  if age ≤ 0 then 20
  else min 100 (20 + (age / 100) ^ (1.8 : ℝ) * 80)

/-- Embedding of `calculate_risk_category` (preprocess.py lines 113-130). -/
noncomputable def calculate_risk_category (risk_score : ℝ) : String :=
  if risk_score ≤ 40 then "Low"
  else if risk_score ≤ 60 then "Medium"
  else if risk_score ≤ 80 then "High"
  else "Critical"

/-- One input row of the table consumed by `preprocess_data`.
`pipe_age_years` is the column after the `pd.to_numeric(..., errors="coerce")`
step (line 288): numeric values kept, non-numeric entries already `none`.
`passthrough` stands for all remaining columns (location, spill volume,
spill cause, ...), which the pipeline never inspects. -/
structure Row where
  pipe_age_years : Option ℚ
  pipe_material : Option String
  spill_year : Option ℤ
  passthrough : List (String × String)
deriving Repr, DecidableEq

/-- One output row of `preprocess_data`.  `pipe_age_years_original` is
doubly optional: the outer `none` means the audit column itself was never
created (the source only adds it when some age exceeds 1800, line 298). -/
structure ScoredRow where
  pipe_age_years : Option ℚ
  pipe_material : Option String
  spill_year : Option ℤ
  passthrough : List (String × String)
  pipe_age_years_original : Option (Option ℚ)
  pipe_material_original : Option String
  pipe_material_standardized : String
  age_score : ℝ
  material_score : ℝ
  risk_score : ℝ
  risk_category : String

/-- `df[df["pipe_age_years"] > 1800].shape[0] > 0` (preprocess.py line 295):
whether the row-wise age repair is triggered at all.  Pandas comparison
with `NaN` is `False`, hence `none` rows never count. -/
def anyAgeOver1800 (rows : List Row) : Bool :=
  rows.any fun r =>
    match r.pipe_age_years with
    | some a => decide (1800 < a)
    | none => false

/-- Row-wise body of `preprocess_data` (lines 287-329): repair the age
(only when the table-level trigger fired), canonicalize the material,
drop the row unless the post-repair age and the raw material are both
present, and score the survivors on the canonicalized material.
`risk_score` follows line 328: `age_score * 0.80 + material_score * 0.20`. -/
noncomputable def processRow (fixTriggered : Bool) (r : Row) : Option ScoredRow :=
  let repairedAge :=
    if fixTriggered then fix_pipe_age r.pipe_age_years r.spill_year else r.pipe_age_years
  let std := standardize_material_name r.pipe_material
  match repairedAge, r.pipe_material with
  | some a, some _ =>
    let ascore := calculate_age_score (a : ℝ)
    let mscore : ℝ := (calculate_material_score std : ℝ)
    let rscore := ascore * 0.80 + mscore * 0.20
    some
      { pipe_age_years := some a
        pipe_material := r.pipe_material
        spill_year := r.spill_year
        passthrough := r.passthrough
        pipe_age_years_original := if fixTriggered then some r.pipe_age_years else none
        pipe_material_original := r.pipe_material
        pipe_material_standardized := std
        age_score := ascore
        material_score := mscore
        risk_score := rscore
        risk_category := calculate_risk_category rscore }
  | _, _ => none

/-- Embedding of `preprocess_data` (preprocess.py lines 266-365), with the
I/O, printing and saving stripped: every stage of the source is row-wise
independent, so coerce/repair/canonicalize/filter/score over the table is
the single `filterMap` of the row body, preserving the input row order. -/
noncomputable def preprocess_data (rows : List Row) : List ScoredRow :=
  rows.filterMap (processRow (anyAgeOver1800 rows))

/-- The filter predicate of line 319: post-repair age non-null and raw
material non-null. -/
def keeps (fixTriggered : Bool) (r : Row) : Bool :=
  (if fixTriggered then fix_pipe_age r.pipe_age_years r.spill_year
   else r.pipe_age_years).isSome
  && r.pipe_material.isSome

/-- Total version of the scoring body, defined on rows that pass `keeps`
(elsewhere the `getD` default is irrelevant); used to state that the
pipeline is exactly filter-then-score. -/
noncomputable def emitRow (fixTriggered : Bool) (r : Row) : ScoredRow :=
  let repairedAge :=
    if fixTriggered then fix_pipe_age r.pipe_age_years r.spill_year else r.pipe_age_years
  let a := repairedAge.getD 0
  let std := standardize_material_name r.pipe_material
  let ascore := calculate_age_score (a : ℝ)
  let mscore : ℝ := (calculate_material_score std : ℝ)
  let rscore := ascore * 0.80 + mscore * 0.20
  { pipe_age_years := some a
    pipe_material := r.pipe_material
    spill_year := r.spill_year
    passthrough := r.passthrough
    pipe_age_years_original := if fixTriggered then some r.pipe_age_years else none
    pipe_material_original := r.pipe_material
    pipe_material_standardized := std
    age_score := ascore
    material_score := mscore
    risk_score := rscore
    risk_category := calculate_risk_category rscore }

/-! ### Helper lemmas shared across several claims -/

/-- The age score always lies in the closed interval `[20, 100]`. -/
theorem calculate_age_score_mem (a : ℝ) :
    20 ≤ calculate_age_score a ∧ calculate_age_score a ≤ 100 := by
  unfold calculate_age_score
  split
  · norm_num
  · rename_i h
    have ha : (0 : ℝ) < a := not_le.mp h
    have ht : (0 : ℝ) ≤ (a / 100) ^ (1.8 : ℝ) :=
      Real.rpow_nonneg (by positivity) _
    exact ⟨le_min (by norm_num) (by nlinarith), min_le_left _ _⟩

/-- The material score always lies in the closed interval `[10, 100]`. -/
theorem calculate_material_score_mem (m : String) :
    10 ≤ calculate_material_score m ∧ calculate_material_score m ≤ 100 := by
  simp only [calculate_material_score]
  constructor <;> (repeat' split) <;> norm_num

/-- The row body is exactly: keep iff the line-319 predicate holds, and
score the kept row. -/
theorem processRow_eq (fixB : Bool) (r : Row) :
    processRow fixB r = if keeps fixB r then some (emitRow fixB r) else none := by
  cases hA : (if fixB then fix_pipe_age r.pipe_age_years r.spill_year
      else r.pipe_age_years) with
  | none =>
    cases hM : r.pipe_material <;> simp [processRow, keeps, emitRow, hA, hM]
  | some a =>
    cases hM : r.pipe_material <;> simp [processRow, keeps, emitRow, hA, hM]

/-- The whole pipeline is filter-then-score. -/
theorem filterMap_processRow (fixB : Bool) (rows : List Row) :
    rows.filterMap (processRow fixB) = (rows.filter (keeps fixB)).map (emitRow fixB) := by
  induction rows with
  | nil => rfl
  | cons r t ih =>
    rw [List.filterMap_cons, List.filter_cons, processRow_eq]
    by_cases h : keeps fixB r = true
    · simp [h, ih]
    · simp [h, ih]

/-- Surviving a `processRow` leaves the uninspected fields untouched. -/
theorem processRow_fields (fixB : Bool) (r : Row) (s : ScoredRow)
    (h : processRow fixB r = some s) :
    s.passthrough = r.passthrough ∧ s.pipe_material = r.pipe_material
      ∧ s.spill_year = r.spill_year ∧ s.pipe_material_original = r.pipe_material := by
  rw [processRow_eq] at h
  split at h
  · injection h with h
    subst h
    simp [emitRow]
  · simp at h

/-- The table-level repair trigger fires exactly when some coerced age
exceeds 1800. -/
theorem anyAgeOver1800_iff (rows : List Row) :
    anyAgeOver1800 rows = true
      ↔ ∃ r ∈ rows, ∃ a, r.pipe_age_years = some a ∧ 1800 < a := by
  unfold anyAgeOver1800
  rw [List.any_eq_true]
  constructor
  · rintro ⟨r, hr, h⟩
    cases hA : r.pipe_age_years with
    | none => rw [hA] at h; exact absurd h (by simp)
    | some a =>
      rw [hA] at h
      exact ⟨r, hr, a, hA, of_decide_eq_true h⟩
  · rintro ⟨r, hr, a, hA, hgt⟩
    exact ⟨r, hr, by rw [hA]; exact decide_eq_true hgt⟩

/-! ### Demonstration rows used by the witnesses -/

/-- A well-formed record: age 40, material "VCP", one pass-through field. -/
def rowVCP : Row := ⟨some 40, some "VCP", none, [("city", "Alhambra")]⟩

/-- A record with a missing material (and a valid age). -/
def rowNoMat : Row := ⟨some 40, none, none, []⟩

/-- A record whose age is an installation year, with a parseable date. -/
def rowInstallYear : Row := ⟨some 2005, some "VCP", some 2020, []⟩

/-- A two-row table with no age above 1800. -/
def demoRows : List Row := [rowNoMat, rowVCP]

/-- A one-row table that triggers the age repair. -/
def demoRowsFix : List Row := [rowInstallYear]

/-- On the no-repair demo table the pipeline emits exactly the scored
well-formed row. -/
theorem demo_mem : emitRow (anyAgeOver1800 demoRows) rowVCP ∈ preprocess_data demoRows := by
  have hf : demoRows.filter (keeps (anyAgeOver1800 demoRows)) = [rowVCP] := by decide
  unfold preprocess_data
  rw [filterMap_processRow, hf]
  simp

/-! ### The claims -/

/-- Claim C1: for every age `a`, `calculate_age_score` returns exactly 20
when `a <= 0`, otherwise `min(100, 20 + (a/100)^1.8 * 80)`, and in
particular exactly 100 for every `a >= 100`. -/
theorem calculate_age_score_spec (a : ℝ) :
    (a ≤ 0 → calculate_age_score a = 20)
    ∧ (0 < a → calculate_age_score a = min 100 (20 + (a / 100) ^ (1.8 : ℝ) * 80))
    ∧ (100 ≤ a → calculate_age_score a = 100) := by
  refine ⟨fun h => by rw [calculate_age_score, if_pos h],
    fun h => by rw [calculate_age_score, if_neg (not_le.mpr h)], fun h => ?_⟩
  have h0 : ¬ a ≤ 0 := by linarith
  have h1 : (1 : ℝ) ≤ a / 100 := (one_le_div (by norm_num)).mpr h
  have h2 : (1 : ℝ) ≤ (a / 100) ^ (1.8 : ℝ) := by
    calc (1 : ℝ) = (1 : ℝ) ^ (1.8 : ℝ) := (Real.one_rpow _).symm
      _ ≤ (a / 100) ^ (1.8 : ℝ) := Real.rpow_le_rpow (by norm_num) h1 (by norm_num)
  rw [calculate_age_score, if_neg h0]
  have : (100 : ℝ) ≤ 20 + (a / 100) ^ (1.8 : ℝ) * 80 := by nlinarith
  exact min_eq_left this

/-- Witness for C1 at the concrete ages `-3` and `150`. -/
theorem calculate_age_score_spec_witness :
    calculate_age_score (-3) = 20 ∧ calculate_age_score 150 = 100 :=
  ⟨(calculate_age_score_spec (-3)).1 (by norm_num),
   (calculate_age_score_spec 150).2.2 (by norm_num)⟩

/-- Claim C3: `calculate_risk_category` cuts the score line into the four
contiguous bands Low (`s <= 40`), Medium (`40 < s <= 60`), High
(`60 < s <= 80`) and Critical (`s > 80`); each boundary value belongs to
the lower band. -/
theorem risk_category_partition (s : ℝ) :
    (s ≤ 40 → calculate_risk_category s = "Low")
    ∧ (40 < s → s ≤ 60 → calculate_risk_category s = "Medium")
    ∧ (60 < s → s ≤ 80 → calculate_risk_category s = "High")
    ∧ (80 < s → calculate_risk_category s = "Critical") := by
  unfold calculate_risk_category
  refine ⟨fun h => by rw [if_pos h], fun h1 h2 => ?_, fun h1 h2 => ?_, fun h => ?_⟩
  · rw [if_neg (not_le.mpr h1), if_pos h2]
  · rw [if_neg (not_le.mpr (by linarith)), if_neg (not_le.mpr h1), if_pos h2]
  · rw [if_neg (not_le.mpr (by linarith)), if_neg (not_le.mpr (by linarith)),
      if_neg (not_le.mpr h)]

/-- Witness for C3 at the three boundary scores and one interior score. -/
theorem risk_category_partition_witness :
    calculate_risk_category 40 = "Low" ∧ calculate_risk_category 60 = "Medium"
    ∧ calculate_risk_category 80 = "High" ∧ calculate_risk_category 95 = "Critical" :=
  ⟨(risk_category_partition 40).1 (by norm_num),
   (risk_category_partition 60).2.1 (by norm_num) (by norm_num),
   (risk_category_partition 80).2.2.1 (by norm_num) (by norm_num),
   (risk_category_partition 95).2.2.2 (by norm_num)⟩

/-- Claim C4 counterexample: the claim includes age 1800 in the month
range, and 1800/12 = 150 passes the claimed sanity interval `(0, 150]`,
so the claim demands `fix_pipe_age 1800 = 150`; but the source tests
`150 < age < 1800` strictly (line 256), so 1800 falls in no repair branch
and is returned unchanged. -/
theorem fix_pipe_age_at_1800 :
    fix_pipe_age (some 1800) none = some 1800
    ∧ (0 < (1800 : ℚ) / 12 ∧ (1800 : ℚ) / 12 ≤ 150)
    ∧ some ((1800 : ℚ) / 12) ≠ some (1800 : ℚ) := by
  refine ⟨by norm_num [fix_pipe_age], by norm_num, by norm_num⟩

/-- Claim C4 (amended): for every `150 < a < 1800` (strict upper bound),
whatever the event date, `fix_pipe_age` interprets `a` as months and
returns `a/12` whenever `a/12` lies in `(0, 150]`, else `a` unchanged. -/
theorem fix_pipe_age_months (a : ℚ) (d : Option ℤ) (h1 : 150 < a) (h2 : a < 1800) :
    fix_pipe_age (some a) d
      = if 0 < a / 12 ∧ a / 12 ≤ 150 then some (a / 12) else some a := by
  simp only [fix_pipe_age]
  rw [if_neg (by linarith : ¬ a ≤ 150), if_neg (by linarith : ¬ 1800 < a),
    if_pos ⟨h1, h2⟩]

/-- Witness for the amended C4 at age 600 (months), giving 50 years. -/
theorem fix_pipe_age_months_witness : fix_pipe_age (some 600) none = some 50 := by
  rw [fix_pipe_age_months 600 none (by norm_num) (by norm_num)]
  norm_num

/-- Claim C5 counterexample: for the raw label "C900" the pipeline's
score of the canonicalized label differs from the score re-derived from
the raw label, so the two family detections are not equivalent. -/
theorem material_score_canonical_vs_raw_cex :
    ¬ calculate_material_score (standardize_material_name (some "C900"))
        = calculate_material_score "C900" := by decide

/-- Claim C5 (amended): the scorer's and the canonicalizer's family
detections are not equivalent; e.g. the canonicalizer maps "C900" to
"PVC", which scores 10, while the scorer's own detection leaves the raw
"C900" unmatched at the default 50.  Scoring the canonicalized label (as
the pipeline does) thus differs from re-deriving the family from the raw
label on such inputs. -/
theorem material_score_canonical_vs_raw :
    standardize_material_name (some "C900") = "PVC"
    ∧ calculate_material_score (standardize_material_name (some "C900")) = 10
    ∧ calculate_material_score "C900" = 50
    ∧ calculate_material_score (standardize_material_name (some "METAL")) = 60
    ∧ calculate_material_score "METAL" = 50 := by decide

/-- Claim C8: `standardize_material_name` is idempotent on the twelve
canonical labels. -/
theorem standardize_idempotent_on_canonical :
    standardize_material_name (some "Cast Iron") = "Cast Iron"
    ∧ standardize_material_name (some "Concrete") = "Concrete"
    ∧ standardize_material_name (some "Concrete (Reinforced)") = "Concrete (Reinforced)"
    ∧ standardize_material_name (some "VCP") = "VCP"
    ∧ standardize_material_name (some "Ductile Iron") = "Ductile Iron"
    ∧ standardize_material_name (some "PVC") = "PVC"
    ∧ standardize_material_name (some "HDPE") = "HDPE"
    ∧ standardize_material_name (some "Steel") = "Steel"
    ∧ standardize_material_name (some "Brick") = "Brick"
    ∧ standardize_material_name (some "Asbestos Cement") = "Asbestos Cement"
    ∧ standardize_material_name (some "Fiberglass") = "Fiberglass"
    ∧ standardize_material_name (some "Unknown") = "Unknown" := by decide

/-- Claim C10: no scorer family rule matches "Brick", "Fiberglass" or
"Unknown", so each gets the moderate default 50 — the same value the
scorer returns for any label with no family match — even though "Brick"
and "Fiberglass" are canonical outputs of `standardize_material_name`. -/
theorem material_score_default_labels :
    (∀ m : String, materialFamilyMatched m = false → calculate_material_score m = 50)
    ∧ materialFamilyMatched "Brick" = false
    ∧ materialFamilyMatched "Fiberglass" = false
    ∧ materialFamilyMatched "Unknown" = false
    ∧ calculate_material_score "Brick" = 50
    ∧ calculate_material_score "Fiberglass" = 50
    ∧ calculate_material_score "Unknown" = 50
    ∧ standardize_material_name (some "Brick") = "Brick"
    ∧ standardize_material_name (some "Fiberglass") = "Fiberglass" := by
  refine ⟨?_, by decide, by decide, by decide, by decide, by decide, by decide,
    by decide, by decide⟩
  intro m h
  simp only [materialFamilyMatched, Bool.or_eq_false_iff] at h
  obtain ⟨⟨⟨⟨⟨⟨h1, h2⟩, h3⟩, h4⟩, h5⟩, h6⟩, h7⟩ := h
  simp [calculate_material_score, h1, h2, h3, h4, h5, h6, h7]

/-- Witness for the universally quantified part of C10 at "Brick". -/
theorem material_score_default_labels_witness :
    calculate_material_score "Brick" = 50 :=
  material_score_default_labels.1 "Brick" (by decide)

/-- Claim C2: every emitted record's `risk_score` is exactly
`0.80 * age_score + 0.20 * material_score`, and lies in `[18, 100]`. -/
theorem risk_score_weighted (rows : List Row) (s : ScoredRow)
    (hs : s ∈ preprocess_data rows) :
    s.risk_score = 0.80 * s.age_score + 0.20 * s.material_score
    ∧ 18 ≤ s.risk_score ∧ s.risk_score ≤ 100 := by
  have hs2 : s ∈ rows.filterMap (processRow (anyAgeOver1800 rows)) := hs
  rcases List.mem_filterMap.mp hs2 with ⟨r, hr, hpr⟩
  rw [processRow_eq] at hpr
  split at hpr
  · injection hpr with h
    subst h
    have hA := calculate_age_score_mem
      (((if anyAgeOver1800 rows then fix_pipe_age r.pipe_age_years r.spill_year
        else r.pipe_age_years).getD 0 : ℚ) : ℝ)
    have hM := calculate_material_score_mem (standardize_material_name r.pipe_material)
    have hM10 : (10 : ℝ) ≤ (calculate_material_score
        (standardize_material_name r.pipe_material) : ℝ) := by exact_mod_cast hM.1
    have hM100 : (calculate_material_score
        (standardize_material_name r.pipe_material) : ℝ) ≤ 100 := by exact_mod_cast hM.2
    refine ⟨by simp only [emitRow]; ring, ?_, ?_⟩
    · simp only [emitRow]
      nlinarith [hA.1, hA.2]
    · simp only [emitRow]
      nlinarith [hA.1, hA.2]
  · simp at hpr

/-- Witness for C2 on the two-row demo table. -/
theorem risk_score_weighted_witness :
    (emitRow (anyAgeOver1800 demoRows) rowVCP).risk_score
      = 0.80 * (emitRow (anyAgeOver1800 demoRows) rowVCP).age_score
        + 0.20 * (emitRow (anyAgeOver1800 demoRows) rowVCP).material_score
    ∧ 18 ≤ (emitRow (anyAgeOver1800 demoRows) rowVCP).risk_score
    ∧ (emitRow (anyAgeOver1800 demoRows) rowVCP).risk_score ≤ 100 :=
  risk_score_weighted demoRows _ demo_mem

/-- Claim C6: the pipeline keeps exactly the records whose post-repair
age and raw material are both present — the output is the kept records,
scored, in order, and nothing else — and no emitted record has a missing
raw material. -/
theorem preprocess_keeps_exactly (rows : List Row) :
    preprocess_data rows
      = (rows.filter (keeps (anyAgeOver1800 rows))).map (emitRow (anyAgeOver1800 rows))
    ∧ ∀ s ∈ preprocess_data rows, s.pipe_material_original.isSome := by
  refine ⟨filterMap_processRow _ rows, fun s hs => ?_⟩
  have hs2 : s ∈ rows.filterMap (processRow (anyAgeOver1800 rows)) := hs
  rcases List.mem_filterMap.mp hs2 with ⟨r, hr, hpr⟩
  have hk : keeps (anyAgeOver1800 rows) r = true := by
    rw [processRow_eq] at hpr
    by_contra hkf
    rw [if_neg hkf] at hpr
    simp at hpr
  have hfield := (processRow_fields _ _ _ hpr).2.2.2
  rw [hfield]
  simp only [keeps, Bool.and_eq_true] at hk
  exact hk.2

/-- Witness for C6: on the demo table (one missing-material row, one
well-formed row) the output is exactly the scored well-formed row, whose
raw material is present. -/
theorem preprocess_keeps_exactly_witness :
    preprocess_data demoRows
      = (demoRows.filter (keeps (anyAgeOver1800 demoRows))).map
          (emitRow (anyAgeOver1800 demoRows))
    ∧ (emitRow (anyAgeOver1800 demoRows) rowVCP).pipe_material_original.isSome :=
  ⟨(preprocess_keeps_exactly demoRows).1,
   (preprocess_keeps_exactly demoRows).2 _ demo_mem⟩

/-- Claim C7 counterexample: on a one-row table whose single age is 40
(well below 1800), the output is a single record whose
`pipe_age_years_original` audit column was never created — contradicting
the claim that all seven derived/audit columns exist with no precondition
on the age values (the source only creates this column inside
`if ages_needing_fix > 0`, line 298). -/
theorem age_original_column_absent_cex :
    (preprocess_data [rowVCP]).map (fun s => s.pipe_age_years_original) = [none] := by
  have h1 : anyAgeOver1800 [rowVCP] = false := by decide
  have hf : ([rowVCP].filter (keeps (anyAgeOver1800 [rowVCP]))) = [rowVCP] := by decide
  unfold preprocess_data
  rw [filterMap_processRow, hf, List.map_map]
  simp [emitRow, h1]

/-- Claim C7 (amended): every emitted record always carries the six
derived/audit columns `pipe_material_original`, `pipe_material_standardized`,
`age_score`, `material_score`, `risk_score` and `risk_category` (total
fields of the output row) in addition to every original column; the
seventh, `pipe_age_years_original`, is present if and only if some
coerced input age exceeds 1800. -/
theorem age_original_column_presence (rows : List Row) (s : ScoredRow)
    (hs : s ∈ preprocess_data rows) :
    s.pipe_age_years_original.isSome
      ↔ ∃ r ∈ rows, ∃ a, r.pipe_age_years = some a ∧ 1800 < a := by
  have hs2 : s ∈ rows.filterMap (processRow (anyAgeOver1800 rows)) := hs
  rcases List.mem_filterMap.mp hs2 with ⟨r, hr, hpr⟩
  rw [processRow_eq] at hpr
  split at hpr
  · injection hpr with h
    subst h
    rw [← anyAgeOver1800_iff]
    cases hFix : anyAgeOver1800 rows <;> simp [emitRow, hFix]
  · simp at hpr

/-- Witness for the amended C7 on the repair-triggering demo table. -/
theorem age_original_column_presence_witness :
    (emitRow (anyAgeOver1800 demoRowsFix) rowInstallYear).pipe_age_years_original.isSome := by
  have hmem : emitRow (anyAgeOver1800 demoRowsFix) rowInstallYear
      ∈ preprocess_data demoRowsFix := by
    have hf : demoRowsFix.filter (keeps (anyAgeOver1800 demoRowsFix))
        = [rowInstallYear] := by
      norm_num [demoRowsFix, rowInstallYear, keeps, anyAgeOver1800, fix_pipe_age]
    unfold preprocess_data
    rw [filterMap_processRow, hf]
    simp
  exact (age_original_column_presence demoRowsFix _ hmem).mpr
    ⟨rowInstallYear, by simp [demoRowsFix], 2005, rfl, by norm_num⟩

/-- Claim C9: the fields the core never inspects — the pass-through
columns, the raw material and the spill date — survive into the emitted
table unchanged, and the emitted rows keep the original relative order
(the projection of the output is a sublist of the projection of the
input). -/
theorem passthrough_preserved (rows : List Row) :
    (((preprocess_data rows).map
        fun s => (s.passthrough, s.pipe_material, s.spill_year)).Sublist
      (rows.map fun r => (r.passthrough, r.pipe_material, r.spill_year))) := by
  show ((rows.filterMap (processRow (anyAgeOver1800 rows))).map
      fun s => (s.passthrough, s.pipe_material, s.spill_year)).Sublist
    (rows.map fun r => (r.passthrough, r.pipe_material, r.spill_year))
  generalize anyAgeOver1800 rows = fixB
  induction rows with
  | nil => simp
  | cons r t ih =>
    rw [List.filterMap_cons, List.map_cons]
    cases hpr : processRow fixB r with
    | none => exact ih.cons _
    | some s =>
      rw [List.map_cons]
      have hf := processRow_fields fixB r s hpr
      rw [hf.1, hf.2.1, hf.2.2.1]
      exact ih.cons₂ _
